import Mathlib

/-!
# Verification of the homework-status polling bot (`homework.py`)

Shallow embedding of the program's components:

* `get_api_answer`  — the endpoint client (HTTP effects are passed in as an
  `HttpOutcome`; the list of issued GET requests is returned explicitly);
* `check_response`  — the response validator;
* `parse_status`    — the status extractor;
* `check_tokens` / `mainStartup` — the startup credential check;
* `tryBody` / `mainCycle` / `runCycles` — one iteration of the `while True`
  loop in `main`, split into the `try:` body and the `except Exception`
  handler, and the sequential composition of several iterations.

Machine-level Python details that the claims depend on are modelled
explicitly: `None` is `Option.none`, Python's truthiness of `0`/`""`/`None`
is spelled out where the source relies on it, and exception objects carry an
allocation identity (`PyError.ident`) because the source compares exceptions
with `!=`, which for exception instances is object identity.
-/

/-- A review item as read by `parse_status`: the two fields the program
accesses (`homework['homework_name']`, `homework['status']`), each possibly
absent (a missing dict key). -/
structure HWItem where
  homework_name : Option String
  status : Option String
deriving DecidableEq

/-- The value found under the `homeworks` key of the API response:
absent, present but not a list, or an actual list of items. -/
inductive HomeworksField where
  | absent : HomeworksField
  | notAList : HomeworksField
  | items : List HWItem → HomeworksField
deriving DecidableEq

/-- The API response when it is a dict: the `homeworks` field and the value
`response.get('current_date')` would return (`none` models an absent key,
i.e. Python `None`). -/
structure RespDict where
  homeworks : HomeworksField
  current_date : Option Int
deriving DecidableEq

/-- The parsed JSON body of the API response: a dict or something else
(`isinstance(response, dict)` is false). -/
inductive Response where
  | dict : RespDict → Response
  | nonDict : Response
deriving DecidableEq

/-- `response.get('current_date')` in `main` (the response is a dict there,
`check_response` having succeeded). -/
def Response.getCurrentDate : Response → Option Int
  | .dict d => d.current_date
  | .nonDict => none

/-- `HOMEWORK_STATUSES` from the source: status code → verdict text. -/
def HOMEWORK_STATUSES : List (String × String) :=
  [("approved", "Работа проверена: ревьюеру всё понравилось. Ура!"),
   ("reviewing", "Работа взята на проверку ревьюером."),
   ("rejected", "Работа проверена: у ревьюера есть замечания.")]

/-- `RETRY_TIME = 600`. -/
def RETRY_TIME : Int := 600

/-- Errors raised by `check_response`: `exception.KeyNotFound` (carrying the
missing key name) or `TypeError` (carrying the message). -/
inductive CheckError where
  | keyNotFound : String → CheckError
  | typeError : String → CheckError
deriving DecidableEq

/-- `check_response`: requires a dict, requires the `homeworks` key, requires
its value to be a list, and returns that list unchanged. -/
def check_response : Response → Except CheckError (List HWItem)
  | .nonDict => .error (.typeError "В ответе API не обнаружен словарь")
  | .dict d =>
    match d.homeworks with
    | .absent => .error (.keyNotFound "homeworks")
    | .notAList => .error (.typeError "Ответ не содержит список домашних работ")
    | .items hw => .ok hw

/-- Errors raised by `parse_status`: `KeyError` carrying the missing field
name, or `exception.UnknownStatus` carrying the unrecognized status code. -/
inductive ParseError where
  | keyError : String → ParseError
  | unknownStatus : String → ParseError
deriving DecidableEq

/-- `parse_status`: reads `homework['homework_name']` then
`homework['status']` (a missing key raises `KeyError` naming it), resolves
the status through `HOMEWORK_STATUSES` (an unknown code raises
`UnknownStatus` naming it), and returns the formatted message. -/
def parse_status (homework : HWItem) : Except ParseError String :=
  match homework.homework_name with
  | none => .error (.keyError "homework_name")
  | some homework_name =>
    match homework.status with
    | none => .error (.keyError "status")
    | some homework_status =>
      match HOMEWORK_STATUSES.lookup homework_status with
      | none => .error (.unknownStatus homework_status)
      | some verdict =>
        .ok ("Изменился статус проверки работы \"" ++ homework_name
              ++ "\". " ++ verdict)

/-- What the single `requests.get` call inside `get_api_answer` does:
raise a transport-level `RequestException` (with message), or return a
response with a status code and a parsed JSON body. -/
inductive HttpOutcome where
  | transportError : String → HttpOutcome
  | success : Nat → Response → HttpOutcome
deriving DecidableEq

/-- One GET request as issued by `get_api_answer`: its `from_date`
query parameter. -/
structure GetRequest where
  from_date : Int
deriving DecidableEq

/-- `response.raise_for_status()`: raises `HTTPError` (returned as
`some message`) exactly when the status code is 4xx/5xx, otherwise
returns `None`. -/
def raise_for_status (status : Nat) : Option String :=
  if 400 ≤ status ∧ status < 600 then some ("HTTPError " ++ toString status)
  else none

/-- Result of `get_api_answer`: the parsed body, a `RequestException`
re-raised with the `Эндпойнт недоступен` message, or the `TypeError`
produced by `raise None` (when `raise_for_status()` returns `None` for a
non-200 status below 400) — that `TypeError` is not a `RequestException`
and escapes the `except` clause unconverted. -/
inductive FetchResult where
  | ok : Response → FetchResult
  | fetchError : String → FetchResult
  | typeError : FetchResult
deriving DecidableEq

/-- `get_api_answer`: `timestamp = current_timestamp or int(time.time())`
(Python `or`: `0` is falsy, every other integer is passed through), one GET
with `params = {from_date: timestamp}` — the issued requests are returned in
the second component — and the status-code check
`if response.status_code != HTTPStatus.OK: raise response.raise_for_status()`
with `except requests.exceptions.RequestException` converting transport and
HTTP errors to the `Эндпойнт недоступен` message. -/
def get_api_answer (now current_timestamp : Int) (http : HttpOutcome) :
    FetchResult × List GetRequest :=
  let timestamp := if current_timestamp = 0 then now else current_timestamp
  let reqs : List GetRequest := [⟨timestamp⟩]
  match http with
  | .transportError m => (.fetchError ("Эндпойнт недоступен: " ++ m), reqs)
  | .success status body =>
    if status ≠ 200 then
      match raise_for_status status with
      | some m => (.fetchError ("Эндпойнт недоступен: " ++ m), reqs)
      | none => (.typeError, reqs)
    else (.ok body, reqs)

/-- The three environment variables; `none` models an unset variable
(`os.getenv` returning `None`). -/
structure Env where
  practicum_token : Option String
  telegram_token : Option String
  telegram_chat_id : Option String

/-- Python truthiness of an optional string: `None` and `""` are falsy. -/
def truthy : Option String → Bool
  | none => false
  | some st => st ≠ ""

/-- `check_tokens`: `all((PRACTICUM_TOKEN, TELEGRAM_TOKEN, TELEGRAM_CHAT_ID))`. -/
def check_tokens (e : Env) : Bool :=
  truthy e.practicum_token && truthy e.telegram_token && truthy e.telegram_chat_id

/-- How far `main` gets before its `while True` loop: it raises
`exception.MissingVariable` when `check_tokens()` is false, raises
`telegram.error.InvalidToken` when bot construction fails, and otherwise
enters the loop. -/
inductive MainStart where
  | missingVariable : MainStart
  | invalidToken : MainStart
  | entersLoop : MainStart
deriving DecidableEq

/-- The startup portion of `main` (everything before `while True`),
with bot-construction success passed in as `botOk`. -/
def mainStartup (e : Env) (botOk : Bool) : MainStart :=
  if !check_tokens e then .missingVariable
  else if !botOk then .invalidToken
  else .entersLoop

/-- A Python exception object as stored in `last_error`. Exception classes
here define no `__eq__`, so `error != last_error` in `main` compares object
identity; `ident` models the identity of the freshly allocated exception
object (a new object is raised on every failing cycle, so idents from
distinct cycles are distinct). -/
structure PyError where
  ident : Nat
  msg : String
deriving DecidableEq

/-- Any exception that can reach `except Exception as error` in `main`:
`TypeError` from `None - RETRY_TIME` when `current_timestamp` is `None`,
the two outcomes of `get_api_answer`, a `check_response` error, a
`parse_status` error, or `telegram.error.TelegramError` re-raised by
`send_message`. (`IndexError` from `homework[0]` never reaches it: the
inner handler turns it into `pass`.) -/
inductive CycleError where
  | typeErrNone : CycleError
  | fetch : String → CycleError
  | fetchTypeError : CycleError
  | check : CheckError → CycleError
  | parse : ParseError → CycleError
  | telegram : CycleError
deriving DecidableEq

/-- `str(error)` for the exceptions above, as interpolated into the
`Сбой в работе программы` message. -/
def CycleError.msg : CycleError → String
  | .typeErrNone => "unsupported operand type(s) for -: NoneType and int"
  | .fetch m => m
  | .fetchTypeError => "exceptions must derive from BaseException"
  | .check (.keyNotFound k) => "В ответе не обнаружен ключ " ++ k
  | .check (.typeError m) => m
  | .parse (.keyError k) => "Ключ " ++ k ++ " не найден в информации о домашней работе"
  | .parse (.unknownStatus st) => "Неизвестный статус домашней работы: " ++ st
  | .telegram => "Не удалось отправить сообщение"

/-- The loop-carried variables of `main`: `current_timestamp` (becomes
`response.get('current_date')`, hence `Option`), `last_homework` and
`last_error` (both start as `None`), plus `nextErrId`, the allocation
counter backing `PyError.ident`. -/
structure LoopState where
  current_timestamp : Option Int
  last_homework : Option (List HWItem)
  last_error : Option PyError
  nextErrId : Nat
deriving DecidableEq

/-- The external effects available to one loop iteration: the current value
of `time.time()`, what `requests.get` does this cycle, and whether
`bot.send_message` succeeds for the status notification (`sendMsgOk`) and
for the failure notification in the `except` handler (`sendErrOk`). -/
structure CycleEnv where
  now : Int
  http : HttpOutcome
  sendMsgOk : Bool
  sendErrOk : Bool
deriving DecidableEq

/-- The `try:` body of one loop iteration in `main`:
`get_api_answer(current_timestamp - RETRY_TIME)`, `check_response`, the
`homework != last_homework` comparison (whole-list inequality; Python
`list != None` is true), the inner `try: parse_status(homework[0]);
send_message(...); last_homework = homework except IndexError: pass`, and
finally `current_timestamp = response.get('current_date')`. Returns the
updated state and the successfully delivered messages, or the exception
that escapes to the outer handler. -/
def tryBody (env : CycleEnv) (s : LoopState) :
    Except CycleError (LoopState × List String) :=
  match s.current_timestamp with
  | none => .error .typeErrNone
  | some ts =>
    match (get_api_answer env.now (ts - RETRY_TIME) env.http).1 with
    | .fetchError m => .error (.fetch m)
    | .typeError => .error .fetchTypeError
    | .ok response =>
      match check_response response with
      | .error e => .error (.check e)
      | .ok homework =>
        if some homework ≠ s.last_homework then
          match homework with
          | [] =>
            .ok ({ s with current_timestamp := response.getCurrentDate }, [])
          | h0 :: rest =>
            match parse_status h0 with
            | .error e => .error (.parse e)
            | .ok message =>
              if env.sendMsgOk then
                .ok ({ s with current_timestamp := response.getCurrentDate,
                              last_homework := some (h0 :: rest) }, [message])
              else .error .telegram
        else
          .ok ({ s with current_timestamp := response.getCurrentDate }, [])

/-- Outcome of one loop iteration: the resulting state, the messages that
were successfully delivered, and whether an exception escaped the iteration
(terminating the `while True` loop). -/
structure CycleResult where
  state : LoopState
  sent : List String
  crashed : Bool
deriving DecidableEq

/-- One full iteration of `while True` in `main`: the `try:` body, and on
exception the handler `if error != last_error: send_message(bot, f'Сбой в
работе программы: {error}'); last_error = error else: time.sleep(...)`.
The `!=` is object identity (see `PyError`); the handler's `send_message`
call is not guarded, so its failure escapes the loop (`crashed`), and in
that case `last_error = error` was never executed. -/
def mainCycle (env : CycleEnv) (s : LoopState) : CycleResult :=
  match tryBody env s with
  | .ok (s2, sent) => ⟨s2, sent, false⟩
  | .error e =>
    let err : PyError := ⟨s.nextErrId, e.msg⟩
    if s.last_error.map PyError.ident ≠ some err.ident then
      if env.sendErrOk then
        ⟨{ s with last_error := some err, nextErrId := s.nextErrId + 1 },
          ["Сбой в работе программы: " ++ err.msg], false⟩
      else
        ⟨{ s with nextErrId := s.nextErrId + 1 }, [], true⟩
    else
      ⟨{ s with nextErrId := s.nextErrId + 1 }, [], false⟩

/-- Cumulative outcome of several consecutive loop iterations. -/
structure RunResult where
  state : LoopState
  sent : List String
  crashed : Bool
deriving DecidableEq

/-- Run one loop iteration per environment in the list, stopping early if
an iteration lets an exception escape. -/
def runCycles (s : LoopState) : List CycleEnv → RunResult
  | [] => ⟨s, [], false⟩
  | env :: envs =>
    let r := mainCycle env s
    if r.crashed then ⟨r.state, r.sent, true⟩
    else
      let r2 := runCycles r.state envs
      ⟨r2.state, r.sent ++ r2.sent, r2.crashed⟩

/-- The response `get_api_answer` produced this cycle, when fetch succeeded
(used to state which `current_date` the loop adopts). -/
def cycleResponse (env : CycleEnv) (s : LoopState) : Option Response :=
  match s.current_timestamp with
  | none => none
  | some ts =>
    match (get_api_answer env.now (ts - RETRY_TIME) env.http).1 with
    | .ok r => some r
    | .fetchError _ => none
    | .typeError => none

/-! ## Helper lemmas -/

theorem get_api_answer_200 (now ts : Int) (b : Response) :
    (get_api_answer now ts (.success 200 b)).1 = .ok b := rfl

theorem get_api_answer_reqs (now ts : Int) (http : HttpOutcome) :
    (get_api_answer now ts http).2 = [⟨if ts = 0 then now else ts⟩] := by
  cases http with
  | transportError m => rfl
  | success st b =>
    unfold get_api_answer
    by_cases h : st = 200
    · simp [h]
    · simp only [h, ne_eq, not_false_eq_true, if_true, ite_not, if_neg]
      cases raise_for_status st <;> rfl

/-- Whatever the outer `except Exception` handler does, it never touches
`last_homework` or `current_timestamp`: those are only assigned inside the
`try:` body. -/
theorem handler_preserves (env : CycleEnv) (s : LoopState) (e : CycleError)
    (h : tryBody env s = .error e) :
    (mainCycle env s).state.last_homework = s.last_homework ∧
    (mainCycle env s).state.current_timestamp = s.current_timestamp := by
  unfold mainCycle
  rw [h]
  by_cases hc : s.last_error.map PyError.ident ≠ some s.nextErrId
  · by_cases hb : env.sendErrOk <;> simp [hc, hb]
  · simp [hc]

/-! ## Claim theorems -/

/-- C5: `parse_status` raises a `KeyError` naming the missing field when
`homework_name` or `status` is absent, raises `UnknownStatus` naming the
unrecognized code when the status is outside
{approved, reviewing, rejected}, and otherwise returns the formatted
sentence embedding the item name and the verdict mapped by
`HOMEWORK_STATUSES`. -/
theorem C5_parse_status_spec (n st verdict : String) :
    (∀ stOpt : Option String,
       parse_status ⟨none, stOpt⟩ = .error (.keyError "homework_name")) ∧
    (parse_status ⟨some n, none⟩ = .error (.keyError "status")) ∧
    (st ≠ "approved" → st ≠ "reviewing" → st ≠ "rejected" →
       parse_status ⟨some n, some st⟩ = .error (.unknownStatus st)) ∧
    (HOMEWORK_STATUSES.lookup st = some verdict →
       parse_status ⟨some n, some st⟩ =
         .ok ("Изменился статус проверки работы \"" ++ n ++ "\". " ++ verdict)) := by
  refine ⟨fun stOpt => rfl, rfl, ?_, ?_⟩
  · intro h1 h2 h3
    have e1 : (st == "approved") = false := beq_eq_false_iff_ne.mpr h1
    have e2 : (st == "reviewing") = false := beq_eq_false_iff_ne.mpr h2
    have e3 : (st == "rejected") = false := beq_eq_false_iff_ne.mpr h3
    simp [parse_status, HOMEWORK_STATUSES, List.lookup, e1, e2, e3]
  · intro h
    simp [parse_status, h]

theorem C5_witness :
    parse_status ⟨some "hw1", some "in_orbit"⟩
      = .error (.unknownStatus "in_orbit") ∧
    parse_status ⟨some "hw1", some "approved"⟩
      = .ok "Изменился статус проверки работы \"hw1\". Работа проверена: ревьюеру всё понравилось. Ура!" :=
  ⟨(C5_parse_status_spec "hw1" "in_orbit" "").2.2.1
      (by decide) (by decide) (by decide),
   (C5_parse_status_spec "hw1" "approved"
      "Работа проверена: ревьюеру всё понравилось. Ура!").2.2.2 rfl⟩

/-- C6: `check_response` raises `KeyNotFound` on a dict lacking the
`homeworks` key, raises `TypeError` on a non-dict input or a non-list
`homeworks` value, and otherwise returns the list unchanged; the empty
list is a valid success value. -/
theorem C6_check_response_spec (cd : Option Int) (hw : List HWItem) :
    (check_response Response.nonDict
       = .error (.typeError "В ответе API не обнаружен словарь")) ∧
    (check_response (.dict ⟨.absent, cd⟩) = .error (.keyNotFound "homeworks")) ∧
    (check_response (.dict ⟨.notAList, cd⟩)
       = .error (.typeError "Ответ не содержит список домашних работ")) ∧
    (check_response (.dict ⟨.items hw, cd⟩) = .ok hw) ∧
    (check_response (.dict ⟨.items [], cd⟩) = .ok []) :=
  ⟨rfl, rfl, rfl, rfl, rfl⟩

theorem C6_witness :
    check_response (.dict ⟨.absent, some 3⟩) = .error (.keyNotFound "homeworks") ∧
    check_response (.dict ⟨.items [], some 3⟩) = .ok [] :=
  ⟨(C6_check_response_spec (some 3) []).2.1,
   (C6_check_response_spec (some 3) []).2.2.2.2⟩

/-- C8 (amended): a transport error or a 4xx/5xx status makes
`get_api_answer` produce the `Эндпойнт недоступен` fetch error, and exactly
one GET request is issued per invocation; a non-200 status below 400,
however, makes `raise response.raise_for_status()` raise `None`, i.e. a
`TypeError`, not a `RequestException` (see `C8_counterexample`). -/
theorem C8_fetch_spec (now ts : Int) (http : HttpOutcome) :
    (∀ m, http = .transportError m →
       (get_api_answer now ts http).1
         = .fetchError ("Эндпойнт недоступен: " ++ m)) ∧
    (∀ st b, http = .success st b → 400 ≤ st → st < 600 →
       (get_api_answer now ts http).1
         = .fetchError ("Эндпойнт недоступен: " ++ ("HTTPError " ++ toString st))) ∧
    (get_api_answer now ts http).2.length = 1 := by
  refine ⟨?_, ?_, ?_⟩
  · rintro m rfl
    rfl
  · rintro st b rfl h4 h6
    have hne : st ≠ 200 := by omega
    simp [get_api_answer, raise_for_status, hne, h4, h6]
  · rw [get_api_answer_reqs]
    rfl

theorem C8_witness :
    (get_api_answer 0 1 (.success 404 Response.nonDict)).1
      = .fetchError ("Эндпойнт недоступен: " ++ ("HTTPError " ++ toString (404 : Nat))) ∧
    (get_api_answer 0 1 (.transportError "conn refused")).2.length = 1 :=
  ⟨(C8_fetch_spec 0 1 (.success 404 Response.nonDict)).2.1 404 Response.nonDict
      rfl (by decide) (by decide),
   (C8_fetch_spec 0 1 (.transportError "conn refused")).2.2⟩

/-- C8 counterexample: a non-2xx status that is below 400 (here 300) does
not produce a fetch error — `raise_for_status()` returns `None`, and
`raise None` is a `TypeError` that escapes unconverted. -/
theorem C8_counterexample :
    (get_api_answer 0 1 (.success 300 Response.nonDict)).1
      = FetchResult.typeError := rfl

/-- C9: if any of the three credentials is missing or empty,
`check_tokens` is false and `main` raises `MissingVariable` before the
loop; conversely the loop is entered only when all three are truthy
(present and non-empty). -/
theorem C9_tokens_spec (e : Env) (botOk : Bool) :
    ((e.practicum_token = none ∨ e.practicum_token = some "" ∨
      e.telegram_token = none ∨ e.telegram_token = some "" ∨
      e.telegram_chat_id = none ∨ e.telegram_chat_id = some "") →
        check_tokens e = false ∧ mainStartup e botOk = .missingVariable) ∧
    (mainStartup e botOk = .entersLoop →
        check_tokens e = true ∧ truthy e.practicum_token = true ∧
        truthy e.telegram_token = true ∧ truthy e.telegram_chat_id = true) := by
  constructor
  · rintro (h | h | h | h | h | h) <;>
      simp [check_tokens, truthy, mainStartup, h]
  · intro h
    by_cases hc : check_tokens e
    · refine ⟨hc, ?_, ?_, ?_⟩ <;>
        · have hc2 := hc
          simp [check_tokens] at hc2
          simp [hc2]
    · simp [mainStartup, hc] at h

theorem C9_witness :
    check_tokens ⟨some "a", some "", some "c"⟩ = false ∧
    mainStartup ⟨some "a", some "", some "c"⟩ true = .missingVariable :=
  (C9_tokens_spec ⟨some "a", some "", some "c"⟩ true).1
    (Or.inr (Or.inr (Or.inr (Or.inl rfl))))

/-- C10: `timestamp = current_timestamp or int(time.time())` — a timestamp
of 0 is falsy and replaced by the current time; any non-zero timestamp is
passed through verbatim as the `from_date` parameter of the single GET. -/
theorem C10_timestamp_spec (now ts : Int) (http : HttpOutcome) :
    (ts = 0 → (get_api_answer now ts http).2 = [⟨now⟩]) ∧
    (ts ≠ 0 → (get_api_answer now ts http).2 = [⟨ts⟩]) := by
  constructor <;> intro h <;> rw [get_api_answer_reqs] <;> simp [h]

theorem C10_witness :
    (get_api_answer 42 0 (.transportError "x")).2 = [⟨42⟩] ∧
    (get_api_answer 42 1700000000 (.transportError "x")).2 = [⟨1700000000⟩] :=
  ⟨(C10_timestamp_spec 42 0 (.transportError "x")).1 rfl,
   (C10_timestamp_spec 42 1700000000 (.transportError "x")).2 (by decide)⟩

/-- C1 counterexample: the loop compares the whole fetched list
(`homework != last_homework`), not the newest item. Two cycles whose
fetched lists share the same newest item (element 0) but differ in a later
element produce two notifications, contradicting "at most one notification
when the newest item is unchanged". -/
theorem C1_counterexample :
    ([(⟨some "hw1", some "approved"⟩ : HWItem),
        ⟨some "hw2", some "approved"⟩].head?
      = [(⟨some "hw1", some "approved"⟩ : HWItem),
          ⟨some "hw2", some "rejected"⟩].head?) ∧
    (runCycles ⟨some 1700000000, none, none, 0⟩
       [⟨0, .success 200 (.dict ⟨.items
          [⟨some "hw1", some "approved"⟩, ⟨some "hw2", some "approved"⟩],
          some 1700000600⟩), true, true⟩,
        ⟨0, .success 200 (.dict ⟨.items
          [⟨some "hw1", some "approved"⟩, ⟨some "hw2", some "rejected"⟩],
          some 1700001200⟩), true, true⟩]).sent.length = 2 :=
  ⟨rfl, rfl⟩

/-- C1 (amended): within one cycle whose fetch and validation succeed, a
notification is sent iff the fetched list is non-empty and the *whole
list* differs from the stored `last_homework`; an empty list sends nothing
and leaves `last_homework` unchanged; and two consecutive cycles fetching
the *identical whole list* produce at most one notification in total. -/
theorem C1_change_detection (e1 e2 : CycleEnv) (s : LoopState)
    (n1 n2 t u v : Int) (hw : List HWItem) (b1 b2 : Bool)
    (he1 : e1 = ⟨n1, .success 200 (.dict ⟨.items hw, some u⟩), true, b1⟩)
    (he2 : e2 = ⟨n2, .success 200 (.dict ⟨.items hw, some v⟩), true, b2⟩)
    (hts : s.current_timestamp = some t)
    (hparse : ∀ h0 rest, hw = h0 :: rest → ∃ m, parse_status h0 = .ok m) :
    ((mainCycle e1 s).sent ≠ [] ↔ (hw ≠ [] ∧ some hw ≠ s.last_homework)) ∧
    (hw = [] → (mainCycle e1 s).sent = [] ∧
       (mainCycle e1 s).state.last_homework = s.last_homework) ∧
    ((runCycles s [e1, e2]).sent.length ≤ 1) := by
  subst he1 he2
  obtain ⟨cts, lhw, lerr, nid⟩ := s
  have hts2 : cts = some t := hts
  subst hts2
  cases hw with
  | nil =>
    by_cases hc : some ([] : List HWItem) = lhw
    · simp [mainCycle, tryBody, get_api_answer_200, check_response, runCycles,
        Response.getCurrentDate, ← hc]
    · simp [mainCycle, tryBody, get_api_answer_200, check_response, runCycles,
        Response.getCurrentDate, hc]
  | cons h0 rest =>
    obtain ⟨m, hm⟩ := hparse h0 rest rfl
    by_cases hc : some (h0 :: rest) = lhw
    · simp [mainCycle, tryBody, get_api_answer_200, check_response, runCycles,
        Response.getCurrentDate, ← hc, hm]
    · simp [mainCycle, tryBody, get_api_answer_200, check_response, runCycles,
        Response.getCurrentDate, hc, hm]

theorem C1_witness :
    (runCycles ⟨some 0, none, none, 0⟩
       [⟨0, .success 200 (.dict ⟨.items [⟨some "hw1", some "approved"⟩],
            some 5⟩), true, true⟩,
        ⟨0, .success 200 (.dict ⟨.items [⟨some "hw1", some "approved"⟩],
            some 5⟩), true, true⟩]).sent.length ≤ 1 :=
  (C1_change_detection _ _ ⟨some 0, none, none, 0⟩ 0 0 0 5 5
    [⟨some "hw1", some "approved"⟩] true true rfl rfl rfl
    (by intro h0 rest h; cases h; exact ⟨_, rfl⟩)).2.2

/-- C2: the code's behavior at the failing input. Two consecutive cycles
that fail with the *same* error message send *two* failure notifications,
because `error != last_error` compares exception objects by identity and
each cycle raises a fresh object: the dedup branch never fires. The claim
(and the dead `else` branch of the handler) expect exactly one. -/
theorem C2_code_behavior :
    (runCycles ⟨some 1700000000, none, none, 0⟩
       [⟨0, .transportError "endpoint unreachable", true, true⟩,
        ⟨0, .transportError "endpoint unreachable", true, true⟩]).sent =
    ["Сбой в работе программы: Эндпойнт недоступен: endpoint unreachable",
     "Сбой в работе программы: Эндпойнт недоступен: endpoint unreachable"] :=
  rfl

/-- C3 counterexample: a cycle in which the fetch fails *and* the failure
notification fails to send lets the `telegram.error.TelegramError` escape
the `except Exception` handler: the loop crashes, so not every in-cycle
error is absorbed. -/
theorem C3_counterexample :
    (mainCycle ⟨0, .transportError "down", true, false⟩
       ⟨some 1700000000, none, none, 0⟩).crashed = true := rfl

/-- C3 (amended): every error raised inside the `try:` body of a cycle is
absorbed by the loop controller, *provided* the failure-notification send
in the handler succeeds; the handler's own `send_message` call is not
guarded, so its failure propagates out of the loop. -/
theorem C3_absorption (env : CycleEnv) (s : LoopState)
    (h : env.sendErrOk = true) :
    (mainCycle env s).crashed = false := by
  unfold mainCycle
  split
  · rfl
  · by_cases hc : s.last_error.map PyError.ident ≠ some s.nextErrId
    · simp [hc, h]
    · simp [hc]

theorem C3_witness :
    (mainCycle ⟨0, .transportError "down", true, true⟩
       ⟨some 1700000000, none, none, 0⟩).crashed = false :=
  C3_absorption _ _ rfl

/-- C4: when the fetch and validation succeed and a change is detected but
the status extractor fails or the notifier fails, the cycle commits
nothing: `last_homework` and `current_timestamp` are exactly as before, so
the same change is re-detected next cycle. -/
theorem C4_failed_notify_preserves_state (env : CycleEnv) (s : LoopState)
    (n t : Int) (cd : Option Int) (h0 : HWItem) (rest : List HWItem)
    (bMsg bErr : Bool)
    (henv : env = ⟨n, .success 200 (.dict ⟨.items (h0 :: rest), cd⟩), bMsg, bErr⟩)
    (hts : s.current_timestamp = some t)
    (hdiff : some (h0 :: rest) ≠ s.last_homework)
    (hfail : (∃ e, parse_status h0 = .error e) ∨ bMsg = false) :
    (mainCycle env s).state.last_homework = s.last_homework ∧
    (mainCycle env s).state.current_timestamp = s.current_timestamp := by
  subst henv
  obtain ⟨cts, lhw, lerr, nid⟩ := s
  have hts2 : cts = some t := hts
  subst hts2
  have hdiff2 : some (h0 :: rest) ≠ lhw := hdiff
  have htb : ∃ e, tryBody ⟨n, .success 200 (.dict ⟨.items (h0 :: rest), cd⟩), bMsg, bErr⟩
      ⟨some t, lhw, lerr, nid⟩ = .error e := by
    rcases hfail with ⟨e, he⟩ | hb
    · exact ⟨.parse e,
        by simp [tryBody, get_api_answer_200, check_response, hdiff2, he]⟩
    · cases hp : parse_status h0 with
      | error e => exact ⟨.parse e,
          by simp [tryBody, get_api_answer_200, check_response, hdiff2, hp]⟩
      | ok m => exact ⟨.telegram,
          by simp [tryBody, get_api_answer_200, check_response, hdiff2, hp, hb]⟩
  obtain ⟨e, he⟩ := htb
  exact handler_preserves _ _ e he

theorem C4_witness :
    (mainCycle ⟨0, .success 200 (.dict ⟨.items [⟨some "hw1", some "in_orbit"⟩],
        some 5⟩), true, true⟩
      ⟨some 0, none, none, 0⟩).state.last_homework = none ∧
    (mainCycle ⟨0, .success 200 (.dict ⟨.items [⟨some "hw1", some "in_orbit"⟩],
        some 5⟩), true, true⟩
      ⟨some 0, none, none, 0⟩).state.current_timestamp = some 0 :=
  C4_failed_notify_preserves_state _ _ 0 0 (some 5)
    ⟨some "hw1", some "in_orbit"⟩ [] true true rfl rfl (by simp)
    (Or.inl ⟨.unknownStatus "in_orbit", rfl⟩)

/-- C7 counterexample: a cycle whose fetch and validation succeed (shown by
`check_response` returning the item list) but whose notify attempt fails
(unknown status) leaves the resume marker at its old value 1700000000
instead of adopting the response's `current_date` 1700000600 — the claim's
"fetch and validation succeed ⇒ marker = current_date" half is false. -/
theorem C7_counterexample :
    check_response (.dict ⟨.items [⟨some "hw1", some "in_orbit"⟩],
        some 1700000600⟩)
      = .ok [⟨some "hw1", some "in_orbit"⟩] ∧
    (mainCycle ⟨0, .success 200 (.dict ⟨.items [⟨some "hw1", some "in_orbit"⟩],
        some 1700000600⟩), true, true⟩
       ⟨some 1700000000, none, none, 0⟩).state.current_timestamp
      = some 1700000000 ∧
    some (1700000000 : Int) ≠ some (1700000600 : Int) :=
  ⟨rfl, rfl, by decide⟩

/-- C7 (amended): the resume marker is advanced to the response's
`current_date` exactly when the whole `try:` body of the cycle completes
without error (which includes the notify attempt when one is made); a
cycle that fails at *any* step — fetch, validation, extraction or delivery
— leaves the marker unchanged. -/
theorem C7_marker_spec (env : CycleEnv) (s : LoopState) (n t : Int)
    (d : RespDict) (bMsg bErr : Bool)
    (henv : env = ⟨n, .success 200 (.dict d), bMsg, bErr⟩)
    (hts : s.current_timestamp = some t) :
    (∀ s2 sent, tryBody env s = .ok (s2, sent) →
       (mainCycle env s).state.current_timestamp = d.current_date) ∧
    (∀ env2 : CycleEnv, ∀ e, tryBody env2 s = .error e →
       (mainCycle env2 s).state.current_timestamp = s.current_timestamp) := by
  constructor
  · intro s2 sent h
    have hmc : (mainCycle env s).state = s2 := by
      unfold mainCycle
      rw [h]
    rw [hmc]
    subst henv
    obtain ⟨cts, lhw, lerr, nid⟩ := s
    have hts2 : cts = some t := hts
    subst hts2
    simp only [tryBody, get_api_answer_200] at h
    split at h
    · simp at h
    · split at h
      · split at h
        · simp only [Except.ok.injEq, Prod.mk.injEq] at h
          obtain ⟨hs2, -⟩ := h
          subst hs2
          rfl
        · split at h
          · simp at h
          · split at h
            · simp only [Except.ok.injEq, Prod.mk.injEq] at h
              obtain ⟨hs2, -⟩ := h
              subst hs2
              rfl
            · simp at h
      · simp only [Except.ok.injEq, Prod.mk.injEq] at h
        obtain ⟨hs2, -⟩ := h
        subst hs2
        rfl
  · intro env2 e h
    exact (handler_preserves env2 s e h).2

theorem C7_witness :
    (mainCycle ⟨0, .success 200 (.dict ⟨.items [], some 5⟩), true, true⟩
       ⟨some 0, none, none, 0⟩).state.current_timestamp = some 5 :=
  (C7_marker_spec ⟨0, .success 200 (.dict ⟨.items [], some 5⟩), true, true⟩
      ⟨some 0, none, none, 0⟩ 0 0 ⟨.items [], some 5⟩ true true rfl rfl).1
    ⟨some 5, none, none, 0⟩ [] rfl
